import Mathlib

/-!
Verification of the musickit-types repository: a set of ambient TypeScript
type declarations (seven declaration files plus a README and an MKError
declaration file) describing the external MusicKit JS library.

The development deeply embeds the declaration set of the repository as data
(one Lean value per TypeScript declaration, transcribed from the source
files), defines the relevant static semantics (reference collection,
literal-type assignability, enum member value assignment, mapped type
expansion), and proves the claims about the repository over that embedding.

Transcription conventions, applied uniformly:
- `T[]` and `Array<T>` are both modelled by `TsType.arr`.
- Parameter names of functions and methods are not tracked; parameter types
  are tracked in order.  Optional markers on parameters are not tracked.
- Doc comments of the source are not tracked.
- The `declare namespace MusicKit` wrapper that every file repeats is
  modelled by concatenating the per-file declaration lists into one list.
- Property signatures, static properties, constants, functions and methods
  carry an `Option Stmt` slot for an initializer or body, so that the
  embedding can represent executable code; the source files are ambient
  declarations and every such slot in the transcription is `none`.
-/

/-- A miniature statement language standing for executable TypeScript code.
The embedding of the repository never contains a `Stmt` value: the source
files are declaration files with no function bodies and no initializers. -/
inductive Stmt : Type where
  | skip : Stmt
  | assign (target : String) : Stmt
  | call (callee : String) : Stmt
  | seq (a b : Stmt) : Stmt
deriving Repr, DecidableEq

mutual

/-- TypeScript type expressions, covering the fragment used by the
repository. -/
inductive TsType : Type where
  | str : TsType
  | num : TsType
  | boolType : TsType
  | anyType : TsType
  | unknownType : TsType
  | undefType : TsType
  | nullType : TsType
  | voidType : TsType
  | neverType : TsType
  | lit (s : String) : TsType
  | numLit (n : Int) : TsType
  | ref (name : String) (args : TsList) : TsType
  | union (ts : TsList) : TsType
  | inter (ts : TsList) : TsType
  | arr (t : TsType) : TsType
  | tup (ts : TsList) : TsType
  | objT (ms : MemList) : TsType
  | indexed (base field : String) : TsType
  | idxK (base v : String) : TsType
  | keyof (base : String) : TsType
  | tyVar (v : String) : TsType
  | fnTy (params : TsList) (ret : TsType) : TsType
  | mappedKeyof (src : String) (opt : Bool) (tmpl : TsType) : TsType
  | mappedUnion (src : String) (opt : Bool) (tmpl : TsType) : TsType

/-- Lists of type expressions (a dedicated inductive keeps every recursion
over the grammar structural). -/
inductive TsList : Type where
  | nil : TsList
  | cons (t : TsType) (ts : TsList) : TsList

/-- Members of interfaces, classes and anonymous object types. -/
inductive TsMember : Type where
  | prop (name : String) (optional ro : Bool) (ty : TsType) (init : Option Stmt) : TsMember
  | sprop (name : String) (ty : TsType) (init : Option Stmt) : TsMember
  | method (name : String) (tps : TPList) (params : TsList) (ret : TsType)
      (body : Option Stmt) : TsMember
  | idxSig (key val : TsType) : TsMember

/-- Lists of members. -/
inductive MemList : Type where
  | nil : MemList
  | cons (m : TsMember) (ms : MemList) : MemList

/-- Type parameter lists of generic methods, with their bounds. -/
inductive TPList : Type where
  | nil : TPList
  | cons (name : String) (bound : TsType) (rest : TPList) : TPList

end

/-- A top-level declaration of the repository. -/
inductive Decl : Type where
  | iface (name : String) (tps : List String) (ext : List String)
      (ms : List TsMember) : Decl
  | typeAlias (name : String) (ty : TsType) : Decl
  | enumDecl (name : String) (cs : List (String × Option Int)) : Decl
  | constDecl (name : String) (ty : TsType) (init : Option Stmt) : Decl
  | funcDecl (name : String) (params : List TsType) (ret : TsType)
      (body : Option Stmt) : Decl
  | classDecl (name : String) (ext : List String) (ms : List TsMember) : Decl

def TsList.ofL : List TsType → TsList
  | [] => .nil
  | t :: ts => .cons t (TsList.ofL ts)

def MemList.ofL : List TsMember → MemList
  | [] => .nil
  | m :: ms => .cons m (MemList.ofL ms)

def TPList.ofL : List (String × TsType) → TPList
  | [] => .nil
  | (n, b) :: rest => .cons n b (TPList.ofL rest)

/-- Property signature, required. -/
def p (n : String) (t : TsType) : TsMember := .prop n false false t none

/-- Property signature, optional. -/
def po (n : String) (t : TsType) : TsMember := .prop n true false t none

/-- Property signature, readonly. -/
def pr (n : String) (t : TsType) : TsMember := .prop n false true t none

/-- Property signature, readonly and optional. -/
def pro (n : String) (t : TsType) : TsMember := .prop n true true t none

/-- Static property signature (ambient: no initializer). -/
def sp (n : String) (t : TsType) : TsMember := .sprop n t none

/-- Method signature without type parameters (ambient: no body). -/
def m0 (n : String) (ps : List TsType) (r : TsType) : TsMember :=
  .method n .nil (TsList.ofL ps) r none

/-- Method signature with type parameters (ambient: no body). -/
def mg (n : String) (tps : List (String × TsType)) (ps : List TsType)
    (r : TsType) : TsMember :=
  .method n (TPList.ofL tps) (TsList.ofL ps) r none

/-- Type reference without type arguments. -/
def r0 (n : String) : TsType := .ref n .nil

/-- Type reference with one type argument. -/
def r1 (n : String) (a : TsType) : TsType := .ref n (.cons a .nil)

/-- Union type from a list. -/
def u (ts : List TsType) : TsType := .union (TsList.ofL ts)

/-- Intersection type from a list. -/
def iSect (ts : List TsType) : TsType := .inter (TsList.ofL ts)

/-- Anonymous object type from a member list. -/
def objOf (ms : List TsMember) : TsType := .objT (MemList.ofL ms)

/-- Function type from a parameter list. -/
def fnT (ps : List TsType) (r : TsType) : TsType := .fnTy (TsList.ofL ps) r

/-- The `Relationship<A>` reference. -/
def rel (a : TsType) : TsType := r1 "Relationship" a

/-- The `View<A>` reference. -/
def viewOf (a : TsType) : TsType := r1 "View" a

/-- The `Promise<A>` reference. -/
def promiseOf (a : TsType) : TsType := r1 "Promise" a

/-- The `Record<K, V>` reference. -/
def recordOf (k v : TsType) : TsType := .ref "Record" (.cons k (.cons v .nil))

/-- The `A | undefined` pattern of the source. -/
def orUndef (t : TsType) : TsType := u [t, .undefType]

/-- The recurring `Record<string, Relationship<Resource> |
Array<Relationship<Resource>>>` type of the API file. -/
def relRecord : TsType :=
  recordOf .str (u [rel (r0 "Resource"), .arr (rel (r0 "Resource"))])

/-- The name introduced by a declaration. -/
def declName : Decl → String
  | .iface n _ _ _ => n
  | .typeAlias n _ => n
  | .enumDecl n _ => n
  | .constDecl n _ _ => n
  | .funcDecl n _ _ _ => n
  | .classDecl n _ _ => n

/-- The syntactic form in which one declaration refers to another: an
`extends` clause, a plain type reference (including generic instantiation
arguments), direct membership in a union type, direct membership in an
intersection type, an indexed access `Base[...]`, a `keyof Base` operator,
or the source of a mapped type. -/
inductive RefForm : Type where
  | extendsC : RefForm
  | typeRef : RefForm
  | unionMember : RefForm
  | interMember : RefForm
  | idxAccess : RefForm
  | keyofC : RefForm
  | mappedSrc : RefForm
deriving Repr, DecidableEq

mutual

/-- Collect the names referenced by a type expression, each paired with the
syntactic form of the occurrence.  The first argument is the form of the
position in which the whole expression occurs. -/
def tyForms : RefForm → TsType → List (String × RefForm)
  | f, .ref n args => (n, f) :: tysForms RefForm.typeRef args
  | _, .union ts => tysForms RefForm.unionMember ts
  | _, .inter ts => tysForms RefForm.interMember ts
  | f, .arr t => tyForms f t
  | f, .tup ts => tysForms f ts
  | _, .objT ms => memsForms ms
  | _, .indexed b _ => [(b, RefForm.idxAccess)]
  | _, .idxK b _ => [(b, RefForm.idxAccess)]
  | _, .keyof b => [(b, RefForm.keyofC)]
  | _, .fnTy ps r => tysForms RefForm.typeRef ps ++ tyForms RefForm.typeRef r
  | _, .mappedKeyof src _ tmpl => (src, RefForm.mappedSrc) :: tyForms RefForm.typeRef tmpl
  | _, .mappedUnion src _ tmpl => (src, RefForm.mappedSrc) :: tyForms RefForm.typeRef tmpl
  | _, _ => []

def tysForms : RefForm → TsList → List (String × RefForm)
  | _, .nil => []
  | f, .cons t ts => tyForms f t ++ tysForms f ts

def memsForms : MemList → List (String × RefForm)
  | .nil => []
  | .cons m ms => memForms m ++ memsForms ms

def memForms : TsMember → List (String × RefForm)
  | .prop _ _ _ t _ => tyForms RefForm.typeRef t
  | .sprop _ t _ => tyForms RefForm.typeRef t
  | .method _ tps ps r _ =>
      tpsForms tps ++ tysForms RefForm.typeRef ps ++ tyForms RefForm.typeRef r
  | .idxSig k v => tyForms RefForm.typeRef k ++ tyForms RefForm.typeRef v

def tpsForms : TPList → List (String × RefForm)
  | .nil => []
  | .cons _ b rest => tyForms RefForm.typeRef b ++ tpsForms rest

end

/-- The names referenced by a declaration, with the form of each occurrence.
Type variables and literal types reference no declaration. -/
def declForms : Decl → List (String × RefForm)
  | .iface _ _ ext ms =>
      ext.map (fun e => (e, RefForm.extendsC)) ++ (ms.map memForms).flatten
  | .typeAlias _ t => tyForms RefForm.typeRef t
  | .enumDecl _ _ => []
  | .constDecl _ t _ => tyForms RefForm.typeRef t
  | .funcDecl _ ps r _ =>
      (ps.map (tyForms RefForm.typeRef)).flatten ++ tyForms RefForm.typeRef r
  | .classDecl _ ext ms =>
      ext.map (fun e => (e, RefForm.extendsC)) ++ (ms.map memForms).flatten

/-- All (name, form) reference occurrences of a declaration list. -/
def allForms (ds : List Decl) : List (String × RefForm) :=
  (ds.map declForms).flatten

/-- The declaration names referenced by a declaration. -/
def declRefNames (d : Decl) : List String := (declForms d).map (fun x => x.1)

mutual

/-- Number of statements contained in a type expression (through initializer
and body slots of anonymous object members). -/
def tyStmts : TsType → Nat
  | .ref _ args => tysStmts args
  | .union ts => tysStmts ts
  | .inter ts => tysStmts ts
  | .arr t => tyStmts t
  | .tup ts => tysStmts ts
  | .objT ms => memsStmts ms
  | .fnTy ps r => tysStmts ps + tyStmts r
  | .mappedKeyof _ _ tmpl => tyStmts tmpl
  | .mappedUnion _ _ tmpl => tyStmts tmpl
  | _ => 0

def tysStmts : TsList → Nat
  | .nil => 0
  | .cons t ts => tyStmts t + tysStmts ts

def memsStmts : MemList → Nat
  | .nil => 0
  | .cons m ms => memStmts m + memsStmts ms

/-- Number of statements carried by a member: its initializer or body if
present, plus any nested in its types. -/
def memStmts : TsMember → Nat
  | .prop _ _ _ t i => (if i.isSome then 1 else 0) + tyStmts t
  | .sprop _ t i => (if i.isSome then 1 else 0) + tyStmts t
  | .method _ tps ps r b =>
      (if b.isSome then 1 else 0) + tpsStmts tps + tysStmts ps + tyStmts r
  | .idxSig k v => tyStmts k + tyStmts v

def tpsStmts : TPList → Nat
  | .nil => 0
  | .cons _ b rest => tyStmts b + tpsStmts rest

end

/-- Number of statements (implementations, initializers) carried by a
declaration. -/
def declStmts : Decl → Nat
  | .iface _ _ _ ms => (ms.map memStmts).sum
  | .typeAlias _ t => tyStmts t
  | .enumDecl _ _ => 0
  | .constDecl _ t i => (if i.isSome then 1 else 0) + tyStmts t
  | .funcDecl _ ps r b =>
      (if b.isSome then 1 else 0) + (ps.map tyStmts).sum + tyStmts r
  | .classDecl _ _ ms => (ms.map memStmts).sum

/-- Total number of statements in a declaration list: the amount of
executable code the embedding contains. -/
def totalStmts (ds : List Decl) : Nat := (ds.map declStmts).sum

/-- A member is a pure signature: a property carrying nothing beyond its
name, optional and readonly markers and its type, a static property or
method with no initializer or body, or an index signature. -/
def memSignatureOnly : TsMember → Bool
  | .prop _ _ _ _ i => i.isNone
  | .sprop _ _ i => i.isNone
  | .method _ _ _ _ b => b.isNone
  | .idxSig _ _ => true

/-- A declaration is ambient: it defines no implementation, no initializer
and no body anywhere. -/
def declAmbient : Decl → Bool
  | .iface _ _ _ ms => ms.all memSignatureOnly
  | .typeAlias _ _ => true
  | .enumDecl _ _ => true
  | .constDecl _ _ i => i.isNone
  | .funcDecl _ _ _ b => b.isNone
  | .classDecl _ _ ms => ms.all memSignatureOnly

/-- Find a declaration by name. -/
def findDecl (ds : List Decl) (n : String) : Option Decl :=
  ds.find? (fun d => declName d == n)

/-- The member list of an interface or class declaration. -/
def declMembers : Decl → Option (List TsMember)
  | .iface _ _ _ ms => some ms
  | .classDecl _ _ ms => some ms
  | _ => none

/-- The type of a property member by name. -/
def propTy (ms : List TsMember) (f : String) : Option TsType :=
  ms.findSome? fun m =>
    match m with
    | .prop n _ _ t _ => if n == f then some t else none
    | _ => none

/-- The declared type of field `f` of interface or class `n`. -/
def memberTy (ds : List Decl) (n f : String) : Option TsType :=
  (findDecl ds n).bind fun d => (declMembers d).bind fun ms => propTy ms f

/-- The parents named in the extends clause of interface or class `n`. -/
def extendsOf (ds : List Decl) (n : String) : List String :=
  match findDecl ds n with
  | some (.iface _ _ ext _) => ext
  | some (.classDecl _ ext _) => ext
  | _ => []

/-- The right-hand side of a type alias. -/
def aliasTy (ds : List Decl) (n : String) : Option TsType :=
  match findDecl ds n with
  | some (.typeAlias _ t) => some t
  | _ => none

/-- Assignability between non-union members of the literal and primitive
fragment of TypeScript used by the discriminating `type` fields of the
repository: a string literal type is assignable to itself and to `string`,
a numeric literal type to itself and to `number`, and each primitive to
itself. -/
def atomAssignable : TsType → TsType → Bool
  | .lit s, .lit t => s == t
  | .lit _, .str => true
  | .numLit a, .numLit b => a == b
  | .numLit _, .num => true
  | .str, .str => true
  | .num, .num => true
  | .boolType, .boolType => true
  | _, _ => false

/-- A non-union type is assignable to some member of a union member list. -/
def atomAssignableAny (a : TsType) : TsList → Bool
  | .nil => false
  | .cons y ys => atomAssignable a y || atomAssignableAny a ys

/-- A non-union type is assignable to a target that may be a flat union:
assignability to a union holds when it holds to some member. -/
def singleAssignable (a t : TsType) : Bool :=
  match t with
  | .union ys => atomAssignableAny a ys
  | b => atomAssignable a b

/-- Every member of a union member list is assignable to the target. -/
def allAssignable (t : TsType) : TsList → Bool
  | .nil => true
  | .cons x xs => singleAssignable x t && allAssignable t xs

/-- Assignability on the flat literal and primitive fragment of TypeScript
used by the discriminating `type` fields of the repository: a union source
is assignable when every member is, and a source is assignable to a union
target when it is assignable to some member. -/
def litAssignable (s t : TsType) : Bool :=
  match s with
  | .union xs => allAssignable t xs
  | a => singleAssignable a t

/-- The declared type of field `f` of interface or class `n`, following the
extension chain when `n` does not declare `f` itself.  The fuel bounds the
chain length. -/
def memberTyInh (ds : List Decl) : Nat → String → String → Option TsType
  | 0, _, _ => none
  | fuel + 1, n, f =>
    match memberTy ds n f with
    | some t => some t
    | none =>
      match extendsOf ds n with
      | parent :: _ => memberTyInh ds fuel parent f
      | [] => none

/-- Checks whether the override of property `f` declared by interface
`child` is assignable to the type its first parent declares (possibly by
inheritance) for `f`: the member compatibility condition TypeScript imposes
on an interface extension clause.  Returns `none` when `child`, its parent
or either property is missing. -/
def overrideCompat (ds : List Decl) (child f : String) : Option Bool :=
  match extendsOf ds child with
  | [] => none
  | parent :: _ =>
    (memberTy ds child f).bind fun cTy =>
      (memberTyInh ds ds.length parent f).map fun pTy => litAssignable cTy pTy

/-- The interfaces of a declaration list whose own `type` property is not
assignable to the `type` property of their parent: the extension clauses a
structural type checker rejects. -/
def typeFieldViolations (ds : List Decl) : List String :=
  ds.filterMap fun d =>
    match overrideCompat ds (declName d) "type" with
    | some false => some (declName d)
    | _ => none

/-- TypeScript enum member value assignment: an explicit integer
initializer sets the value, a member without initializer receives the
successor of the previous value, starting from 0. -/
def enumValues : List (String × Option Int) → Int → List (String × Int)
  | [], _ => []
  | (n, some v) :: rest, _ => (n, v) :: enumValues rest (v + 1)
  | (n, none) :: rest, next => (n, next) :: enumValues rest (next + 1)

/-- The members of enum `n` with their assigned values. -/
def enumValuesOf (ds : List Decl) (n : String) : Option (List (String × Int)) :=
  match findDecl ds n with
  | some (.enumDecl _ cs) => some (enumValues cs 0)
  | _ => none

/-- All enum members of a declaration list that carry an explicit integer
initializer, as (enum name, member name, value) triples. -/
def explicitEnumInits (ds : List Decl) : List (String × String × Int) :=
  ds.flatMap fun d =>
    match d with
    | .enumDecl n cs => cs.filterMap fun c =>
        match c with
        | (m, some v) => some (n, m, v)
        | _ => none
    | _ => []

mutual

/-- Substitute the indexed access `src[K]` of a mapped type template by a
concrete property type. -/
def substK (src : String) (v : TsType) : TsType → TsType
  | .idxK b k => if b == src then v else .idxK b k
  | .ref n args => .ref n (substKL src v args)
  | .union ts => .union (substKL src v ts)
  | .inter ts => .inter (substKL src v ts)
  | .arr t => .arr (substK src v t)
  | .tup ts => .tup (substKL src v ts)
  | .objT ms => .objT (substKM src v ms)
  | .fnTy ps r => .fnTy (substKL src v ps) (substK src v r)
  | .mappedKeyof s o tmpl => .mappedKeyof s o (substK src v tmpl)
  | .mappedUnion s o tmpl => .mappedUnion s o (substK src v tmpl)
  | t => t

def substKL (src : String) (v : TsType) : TsList → TsList
  | .nil => .nil
  | .cons t ts => .cons (substK src v t) (substKL src v ts)

def substKM (src : String) (v : TsType) : MemList → MemList
  | .nil => .nil
  | .cons m ms => .cons (substKMem src v m) (substKM src v ms)

def substKMem (src : String) (v : TsType) : TsMember → TsMember
  | .prop n o ro t i => .prop n o ro (substK src v t) i
  | .sprop n t i => .sprop n (substK src v t) i
  | .method n tps ps r b => .method n tps (substKL src v ps) (substK src v r) b
  | .idxSig k vt => .idxSig (substK src v k) (substK src v vt)

end

/-- The property fields of a member list: (name, optional, type). -/
def propsOf (ms : List TsMember) : List (String × Bool × TsType) :=
  ms.filterMap fun m =>
    match m with
    | .prop n o _ t _ => some (n, o, t)
    | _ => none

/-- Expand a mapped type alias `n` of a declaration list into the property
list it denotes.  For a `{ [K in keyof Src]?: Tmpl }` mapped type the keys
are the property names of interface `Src`, the optional modifier is the one
written on the mapped type and the value at key `K` is the template with
`Src[K]` replaced by the property type of `K` in `Src`. -/
def expandAlias (ds : List Decl) (n : String) : Option (List (String × Bool × TsType)) :=
  match findDecl ds n with
  | some (.typeAlias _ (.mappedKeyof src opt tmpl)) =>
      ((findDecl ds src).bind declMembers).map fun ms =>
        (propsOf ms).map fun f => (f.1, opt, substK src f.2.2 tmpl)
  | _ => none

mutual

/-- Which integers a numeric type admits: exactly its value for a numeric
literal type, every integer for `number`, the members pointwise for a
union, and nothing otherwise. -/
def numAssignable (n : Int) : TsType → Bool
  | .numLit m => n == m
  | .num => true
  | .union ts => numAssignableL n ts
  | _ => false

def numAssignableL (n : Int) : TsList → Bool
  | .nil => false
  | .cons t ts => numAssignable n t || numAssignableL n ts

end

/-- Which integers the type alias `name` of a declaration list admits. -/
def numAssignableName (ds : List Decl) (name : String) (n : Int) : Bool :=
  match aliasTy ds name with
  | some t => numAssignable n t
  | none => false

/-- Tuple type from a list. -/
def tupOf (ts : List TsType) : TsType := .tup (TsList.ofL ts)

/-- The `SearchResult<A>` reference. -/
def sr (a : TsType) : TsType := r1 "SearchResult" a

/-- The repeated `{ beginning: number; ending: number; main: number }`
object of the AudioAnalysis interface. -/
def audioBand : TsType := objOf [p "beginning" .num, p "ending" .num, p "main" .num]

/-- The repeated `{ tonic: string; mode: string }` object of the
AudioAnalysis key attribute. -/
def tonicMode : TsType := objOf [p "tonic" .str, p "mode" .str]

/-- The repeated `{ peak: number; range: number; value: number }` object of
the AudioAnalysis loudness attribute. -/
def loudnessBand : TsType := objOf [p "peak" .num, p "range" .num, p "value" .num]

/-- Transcription of src/types/MusicKit.d.ts: the MusicKit namespace with
its configuration interfaces, module constants, the AuthStatus enum, the
Logger interface and the seven declared utility and entry point functions.
Qualified references of the source (MusicKit.X) are transcribed as plain
names, the namespace being modelled by the concatenated declaration list. -/
def declsMusicKitD : List Decl := [
  .iface "AppConfiguration" [] [] [
    po "build" (orUndef .str),
    po "icon" (orUndef .str),
    po "name" (orUndef .str),
    po "version" (orUndef .str)],
  .iface "FormattedPlaybackDuration" [] [] [
    p "hours" .num,
    p "minutes" .num],
  .iface "EmbedOptions" [] [] [
    p "height" (u [.num, .str]),
    p "width" (u [.num, .str])],
  .constDecl "errors" (.arr (r0 "MKError")) none,
  .constDecl "version" .str none,
  .constDecl "__log" (r0 "Logger") none,
  .enumDecl "AuthStatus" [
    ("NOT_DETERMINED", some 0),
    ("DENIED", some 1),
    ("RESTRICTED", some 2),
    ("AUTHORIZED", some 3)],
  .iface "Logger" [] [] [
    m0 "clearLoggingLevels" [] .voidType,
    m0 "getLogger" [] .unknownType,
    m0 "setLoggingLevels"
      [u [.lit "TRACE", .lit "DEBUG", .lit "INFO", .lit "WARN", .lit "ERROR"],
       .boolType] .voidType],
  .iface "Configuration" [] [] [
    po "app" (orUndef (r0 "AppConfiguration")),
    po "declarativeMarkup" (orUndef .boolType),
    po "developerToken" (orUndef .str),
    po "storefrontId" (orUndef .str),
    po "bitrate" (orUndef (r0 "PlaybackBitrate")),
    po "sourceType" (orUndef .num),
    po "suppressErrorDialog" (orUndef .boolType)],
  .funcDecl "configure" [r0 "Configuration"] (promiseOf (r0 "MusicKitInstance")) none,
  .funcDecl "getInstance" [] (r0 "MusicKitInstance") none,
  .funcDecl "formatArtworkURL" [r0 "Artwork", .num, .num] .str none,
  .funcDecl "formattedMilliseconds" [.num] (r0 "FormattedPlaybackDuration") none,
  .funcDecl "formattedSeconds" [.num] (r0 "FormattedPlaybackDuration") none,
  .funcDecl "generateEmbedCode" [.str, r0 "EmbedOptions"] .str none,
  .funcDecl "formatMediaTime" [.num, .str] .str none]

/-- Transcription of src/types/MusicKit.API.d.ts, part 1: base resource
interfaces, the resource map and its mapped Relationships alias, the
Relationship and View generics, and the catalog resource interfaces up to
Albums. -/
def declsAPI1 : List Decl := [
  .typeAlias "MusicItemID" .str,
  .typeAlias "ContentRating" (u [.lit "clean", .lit "explicit"]),
  .iface "BaseResource" [] [] [
    p "id" .str,
    p "type" .str,
    p "href" .str,
    p "attributes" (recordOf .str .anyType),
    po "relationships" relRecord,
    po "meta" (recordOf .str .anyType),
    po "views" (recordOf .str (u [viewOf (r0 "Resource"), rel (r0 "Resource")]))],
  .iface "BaseMediaResource" [] ["BaseResource"] [
    p "attributes" (objOf [
      p "name" .str,
      p "artistName" .str,
      p "artwork" (r0 "Artwork"),
      p "genreNames" (.arr .str),
      po "contentRating" (r0 "ContentRating"),
      p "url" .str,
      po "personalRating" .num,
      po "inLibrary" .boolType,
      po "inFavorites" .boolType])],
  .iface "BaseLibraryResource" [] ["BaseResource"] [
    p "attributes" (objOf [
      po "dateAdded" .str,
      po "personalRating" .num,
      po "inFavorites" .boolType])],
  .iface "ResourceMap" [] [] [
    po "songs" (r0 "Songs"),
    po "albums" (r0 "Albums"),
    po "artists" (r0 "Artists"),
    po "playlists" (r0 "Playlists"),
    po "storefronts" (r0 "Storefronts"),
    po "library-playlist-folders" (r0 "LibraryPlaylists"),
    po "library-playlists" (r0 "LibraryPlaylists"),
    po "library-songs" (r0 "LibrarySongs"),
    po "library-albums" (r0 "LibraryAlbums"),
    po "library-artists" (r0 "Artists"),
    po "curator" (r0 "Curators"),
    po "social-profiles" (r0 "SocialProfile"),
    po "apple-curators" (r0 "AppleCurators"),
    po "credit-artists" (r0 "CreditArtist"),
    po "lyrics" (r0 "Lyrics"),
    po "credits" (r0 "Credit"),
    po "catalog" (rel (r0 "Playlists")),
    p "personal-recommendation" (r0 "PersonalRecommendation"),
    p "stations" (r0 "Stations"),
    p "music-summaries" (r0 "ReplaySummary"),
    p "music-summaries-milestones" (r0 "ReplayMilestone"),
    p "editorial-items" (r0 "EditorialItem")],
  .typeAlias "Relationships"
    (.mappedKeyof "ResourceMap" true (rel (.idxK "ResourceMap" "K"))),
  .iface "Relationship" ["Data"] [] [
    po "href" .str,
    po "next" .str,
    p "data" (.arr (.tyVar "Data")),
    po "meta" (recordOf .str .anyType)],
  .iface "View" ["Data"] [] [
    po "href" .str,
    po "next" .str,
    p "attributes" (objOf [p "title" .str]),
    p "data" (.arr (.tyVar "Data")),
    po "meta" (recordOf .str .anyType)],
  .iface "Resource" [] ["BaseResource"] [],
  .iface "Storefronts" [] ["Resource"] [
    p "type" (.lit "storefronts"),
    p "attributes" (objOf [
      p "defaultLanguageTag" .str,
      p "explicitContentPolicy" (u [.lit "allowed", .lit "opt-in", .lit "prohibited"]),
      p "name" .str,
      p "supportedLanguageTags" (.arr .str)])],
  .iface "Genres" [] ["Resource"] [
    p "type" (.lit "genres"),
    p "attributes" (objOf [
      p "name" .str,
      po "parentId" .str,
      po "parentName" .str])],
  .iface "Songs" [] ["Resource"] [
    p "id" (r0 "MusicItemID"),
    p "type" (.lit "songs"),
    p "attributes" (objOf [
      p "albumName" .str,
      p "artistName" .str,
      p "artwork" (r0 "Artwork"),
      po "attribution" .str,
      po "composerName" .str,
      po "contentRating" (r0 "ContentRating"),
      po "discNumber" .num,
      p "durationInMillis" .num,
      po "editorialNotes" (r0 "EditorialNotes"),
      p "genreNames" (.arr .str),
      p "hasLyrics" .boolType,
      po "isrc" .str,
      po "movementCount" .num,
      po "movementName" .str,
      po "movementNumber" .num,
      p "name" .str,
      po "playParams" (r0 "PlayParameters"),
      p "previews" (.arr (r0 "Preview")),
      po "releaseDate" .str,
      po "trackNumber" .num,
      p "url" .str,
      po "workName" .str,
      po "artistUrl" .str,
      po "personalRating" .num,
      po "inLibrary" .boolType,
      po "inFavorites" .boolType,
      po "audioLocale" .str]),
    po "relationships" (objOf [
      po "albums" (rel (r0 "Albums")),
      po "artists" (rel (r0 "Artists")),
      po "genres" (rel (r0 "Genres")),
      po "station" (rel (r0 "Stations")),
      po "composers" (rel (r0 "Artists")),
      po "library" (rel (r0 "LibraryAlbums")),
      po "music-videos" (rel (r0 "MusicVideos")),
      po "audio-analysis" (rel (r0 "AudioAnalysis"))])],
  .iface "MusicVideos" [] ["Resource"] [
    p "id" (r0 "MusicItemID"),
    p "type" (.lit "music-videos"),
    p "attributes" (objOf [
      po "albumName" .str,
      p "artistName" .str,
      p "artwork" (r0 "Artwork"),
      po "contentRating" (r0 "ContentRating"),
      p "durationInMillis" .num,
      po "editorialNotes" (r0 "EditorialNotes"),
      p "genreNames" (.arr .str),
      p "has4K" .boolType,
      p "hasHDR" .boolType,
      po "isrc" .str,
      p "name" .str,
      po "playParams" (r0 "PlayParameters"),
      p "previews" (.arr (r0 "Preview")),
      po "releaseDate" .str,
      po "trackNumber" .num,
      p "url" .str,
      po "videoSubType" (.lit "preview"),
      po "workId" .str,
      po "workName" .str,
      po "artistUrl" .str,
      po "personalRating" .num,
      po "inLibrary" .boolType,
      po "inFavorites" .boolType]),
    po "relationships" (iSect [
      objOf [
        p "albums" (rel (r0 "Albums")),
        p "genres" (rel (r0 "Genres")),
        p "library" (rel (r0 "LibraryAlbums")),
        p "songs" (rel (r0 "Songs"))],
      relRecord]),
    p "views" (objOf [
      p "more-by-artist" (viewOf (r0 "MusicVideos")),
      p "more-in-genre" (viewOf (r0 "MusicVideos"))])],
  .iface "AppleCurators" [] ["Resource"] [
    p "type" (.lit "apple-curators"),
    p "attributes" (objOf [
      p "artwork" (r0 "Artwork"),
      po "editorialNotes" (r0 "EditorialNotes"),
      p "kind" (u [.lit "Curator", .lit "Genre", .lit "Show"]),
      p "name" .str,
      po "shortName" .str,
      po "showHostName" .str,
      p "url" .str]),
    po "relationships" (iSect [
      objOf [p "playlists" (rel (r0 "Playlists"))],
      relRecord])],
  .iface "Curators" [] ["Resource"] [
    p "type" (.lit "curator"),
    p "attributes" (objOf [
      p "artwork" (r0 "Artwork"),
      po "editorialNotes" (r0 "EditorialNotes"),
      p "name" .str,
      p "url" .str]),
    p "relationships" (objOf [p "playlists" (rel (r0 "Playlists"))])],
  .iface "Stations" [] ["Resource"] [
    p "type" (.lit "stations"),
    p "attributes" (objOf [
      p "artwork" (r0 "Artwork"),
      p "durationInMillis" .num,
      p "editorialNotes" (r0 "EditorialNotes"),
      p "episodeNumber" .num,
      po "contentRating" (r0 "ContentRating"),
      p "isLive" .boolType,
      p "name" .str,
      p "playParams" (r0 "PlayParameters"),
      p "stationProviderName" .str,
      p "url" .str,
      po "personalRating" .num,
      po "inLibrary" .boolType,
      po "inFavorites" .boolType])],
  .iface "RecordLabels" [] ["Resource"] [
    p "id" (r0 "MusicItemID"),
    p "type" (.lit "record-labels"),
    p "attributes" (objOf [
      p "artwork" (r0 "Artwork"),
      p "description" (r0 "DescriptionAttribute"),
      p "name" .str,
      p "url" .str]),
    p "views" (objOf [
      p "latest-releases" (viewOf (r0 "Albums")),
      p "top-releases" (viewOf (r0 "Albums"))])],
  .iface "Albums" [] ["Resource"] [
    p "type" (.lit "albums"),
    p "attributes" (objOf [
      p "artistName" .str,
      po "artistUrl" .str,
      p "artwork" (r0 "Artwork"),
      po "contentRating" (r0 "ContentRating"),
      po "copyright" .str,
      po "editorialNotes" (r0 "EditorialNotes"),
      p "genreNames" (.arr .str),
      p "isCompilation" .boolType,
      p "isPrerelease" .boolType,
      p "isComplete" .boolType,
      p "isMasteredForItunes" .boolType,
      p "isSingle" .boolType,
      p "name" .str,
      po "playParams" (r0 "PlayParameters"),
      po "recordLabel" .str,
      po "releaseDate" .str,
      p "trackCount" .num,
      po "dateAdded" .str,
      po "upc" .str,
      po "editorialVideo" (r0 "EditorialVideo"),
      p "url" .str,
      po "personalRating" .num,
      po "inLibrary" .boolType,
      po "inFavorites" .boolType]),
    po "relationships" (iSect [
      objOf [
        p "artists" (rel (r0 "Artists")),
        p "genres" (rel (r0 "Genres")),
        p "tracks" (rel (u [r0 "MusicVideos", r0 "Songs"])),
        p "library" (rel (r0 "LibraryAlbums")),
        p "record-labels" (rel (r0 "RecordLabels"))],
      relRecord]),
    p "views" (objOf [
      p "appears-on" (viewOf (r0 "Playlists")),
      p "other-versions" (viewOf (r0 "Albums")),
      p "related-albums" (viewOf (r0 "Albums")),
      p "related-videos" (viewOf (r0 "MusicVideos"))])]]

/-- Transcription of src/types/MusicKit.API.d.ts, part 2: library resource
interfaces (with their literal type overrides and `views?: undefined`
removals), playlists, podcasts, recommendation, editorial and replay
resources. -/
def declsAPI2 : List Decl := [
  .iface "LibraryAlbums" [] ["Albums"] [
    p "type" (.lit "library-albums"),
    p "attributes" (iSect [
      .indexed "Albums" "attributes",
      objOf [
        po "dateAdded" .str,
        po "releaseDate" .str,
        p "trackCount" .num,
        po "personalRating" .num,
        po "inFavorites" .boolType]]),
    po "relationships" (iSect [
      objOf [
        p "artists" (rel (r0 "Artists")),
        p "catalog" (rel (r0 "Playlists")),
        p "tracks" (rel (u [r0 "MusicVideos", r0 "Songs"]))],
      relRecord]),
    po "views" .undefType],
  .iface "LibrarySongs" [] ["Songs"] [
    p "type" (.lit "library-songs"),
    p "attributes" (iSect [
      .indexed "Songs" "attributes",
      objOf [
        po "personalRating" .num,
        po "inFavorites" .boolType]]),
    po "relationships" (objOf [
      po "albums" (rel (r0 "Albums")),
      po "artists" (rel (r0 "Artists")),
      po "genres" (rel (r0 "Genres")),
      po "station" (rel (r0 "Stations")),
      po "composers" (rel (r0 "Artists")),
      po "library" (rel (r0 "LibraryAlbums")),
      po "music-videos" (rel (r0 "MusicVideos"))]),
    po "views" .undefType],
  .iface "LibraryPlaylists" [] ["Resource"] [
    p "id" (r0 "MusicItemID"),
    p "type" (u [.lit "library-playlists", .lit "library-playlist-folders"]),
    p "attributes" (objOf [
      po "hasCollaboration" .boolType,
      p "lastModifiedDate" .str,
      po "trackCount" .num,
      p "canDelete" .boolType,
      p "canEdit" .boolType,
      p "dateAdded" .str,
      p "description" (r0 "DescriptionAttribute"),
      po "artwork" (r0 "Artwork"),
      p "hasCatalog" .boolType,
      p "isPublic" .boolType,
      p "name" .str,
      p "playParams" (r0 "PlayParameters"),
      po "personalRating" .num,
      po "inFavorites" .boolType]),
    po "relationships" (objOf [
      p "catalog" (rel (r0 "Playlists")),
      p "tracks" (rel (u [r0 "MusicVideos", r0 "Songs"]))]),
    p "parent" .str,
    po "views" .undefType],
  .iface "Artists" [] ["Resource"] [
    p "type" (.lit "artists"),
    p "attributes" (objOf [
      po "editorialNotes" (r0 "EditorialNotes"),
      p "genreNames" (.arr .str),
      p "name" .str,
      p "url" .str,
      po "artwork" (r0 "Artwork"),
      po "personalRating" .num,
      po "inLibrary" .boolType,
      po "inFavorites" .boolType]),
    po "relationships" (iSect [
      objOf [
        p "albums" (rel (r0 "Albums")),
        p "genres" (rel (r0 "Genres")),
        p "music-videos" (rel (r0 "MusicVideos")),
        p "playlists" (rel (r0 "Playlists")),
        p "station" (rel (r0 "Stations")),
        po "catalog" (rel (r0 "Artists"))],
      relRecord]),
    p "views" (objOf [
      p "appears-on-albums" (viewOf (r0 "Albums")),
      p "compilation-albums" (objOf [
        po "href" .str,
        po "next" .str,
        p "attributes" (objOf [p "title" .str]),
        p "data" (.arr (r0 "Albums"))]),
      p "featured-albums" (viewOf (r0 "Albums")),
      p "featured-playlists" (viewOf (r0 "Playlists")),
      p "full-albums" (viewOf (r0 "Albums")),
      p "latest-release" (viewOf (r0 "Albums")),
      p "live-albums" (viewOf (r0 "Albums")),
      p "similar-artists" (viewOf (r0 "Artists")),
      p "singles" (viewOf (r0 "Albums")),
      p "top-music-videos" (viewOf (r0 "MusicVideos")),
      p "top-songs" (viewOf (r0 "Songs"))])],
  .iface "Playlists" [] ["Resource"] [
    p "id" (r0 "MusicItemID"),
    p "type" (.lit "playlists"),
    p "attributes" (objOf [
      p "lastModifiedDate" .str,
      p "supportsSings" .boolType,
      p "description" (r0 "DescriptionAttribute"),
      p "artwork" (r0 "Artwork"),
      p "url" .str,
      p "playParams" (r0 "PlayParameters"),
      po "trackCount" .num,
      p "curatorName" .str,
      po "curatorSocialHandle" .str,
      p "audioTraits" (.arr .str),
      p "editorialArtwork" (r0 "EditorialArtwork"),
      p "name" .str,
      p "isChart" .boolType,
      p "playlistType" (u [.lit "editorial", .lit "external", .lit "personal-mix",
        .lit "replay", .lit "user-shared"]),
      po "editorialVideo" (r0 "EditorialVideo"),
      po "editorialNotes" (r0 "EditorialNotes"),
      po "versionHash" .str,
      p "trackTypes" (.arr (u [.lit "music-videos", .lit "songs"])),
      po "tags" (tupOf [.lit "favorited"]),
      po "personalRating" .num,
      po "inLibrary" .boolType,
      po "inFavorites" .boolType]),
    po "relationships" (objOf [
      po "curator" (rel (u [r0 "Activities", r0 "AppleCurators", r0 "Curators"])),
      po "library" (rel (r0 "LibraryPlaylists")),
      po "tracks" (rel (u [r0 "MusicVideos", r0 "Songs"]))]),
    p "views" (objOf [
      p "featured-artists" (viewOf (r0 "Artists")),
      p "more-by-curator" (viewOf (r0 "Playlists"))])],
  .iface "PodcastAttributes" [] [] [
    p "offers" (.arr (objOf [p "kind" .str, p "type" .str])),
    p "contentAdvisory" .str,
    p "copyright" .str,
    p "artworkOrigin" (.lit "podcast"),
    p "genreNames" (.arr .str),
    p "kind" .str,
    p "mediaKind" .str,
    p "description" (r0 "DescriptionAttribute"),
    p "artwork" (r0 "Artwork"),
    p "url" .str,
    p "releaseDateTime" .str,
    p "websiteUrl" .str,
    p "durationInMilliseconds" .num,
    p "name" .str,
    p "guid" .str,
    p "contentRating" (r0 "ContentRating"),
    p "artistName" .str,
    p "subscribable" .boolType,
    p "assetUrl" .str],
  .iface "PodcastEpisode" [] ["Resource"] [
    p "type" (.lit "podcast-episodes"),
    p "attributes" (r0 "PodcastAttributes")],
  .iface "Podcasts" [] ["Resource"] [
    p "type" (.lit "podcasts"),
    p "attributes" (iSect [
      r0 "PodcastAttributes",
      objOf [
        p "seasonNumbers" (.arr .num),
        p "languageTag" .str,
        p "completed" .boolType,
        p "trackCount" .num,
        p "displayType" .str,
        p "createdDate" .str,
        p "subscriptionUrl" .str]])],
  .iface "Activities" [] ["Resource"] [
    p "type" (.lit "activities"),
    p "attributes" (objOf [
      p "artwork" (r0 "Artwork"),
      po "editorialNotes" (r0 "EditorialNotes"),
      p "name" .str,
      p "url" .str]),
    p "relationships" (objOf [p "playlists" (rel (r0 "Playlists"))])],
  .iface "PersonalRecommendation" [] ["Resource"] [
    p "type" (.lit "personal-recommendation"),
    p "attributes" (objOf [
      p "kind" (u [.lit "music-recommendations", .lit "recently-played", .lit "unknown"]),
      p "nextUpdateDate" .str,
      p "reason" (objOf [p "stringForDisplay" .str]),
      p "resourceTypes" (.arr .str),
      p "title" (objOf [p "stringForDisplay" .str]),
      po "display" (objOf [
        p "kind" .str,
        p "decorations" (.arr .unknownType)])]),
    po "relationships" (objOf [
      .idxSig .str (objOf [
        p "data" (.arr (r0 "Resource")),
        p "href" .str])])],
  .iface "SocialProfile" [] ["Resource"] [
    p "type" (.lit "social-profiles"),
    p "attributes" (objOf [
      p "artwork" (r0 "Artwork"),
      p "handle" .str,
      p "isPrimary" .boolType,
      p "isVerified" .boolType,
      p "name" .str,
      p "url" .str])],
  .iface "Groupings" [] ["Resource"] [
    p "type" (.lit "groupings"),
    p "attributes" (objOf [
      p "genreNames" (.arr .str),
      p "name" .str]),
    po "relationships" (iSect [
      objOf [
        p "curator" (rel (r0 "Curators")),
        p "tabs" (rel (r0 "EditorialElements"))],
      relRecord])],
  .iface "Rooms" [] ["Resource"] [
    p "type" (.lit "rooms")],
  .iface "EditorialElements" [] ["Resource"] [
    p "type" (.lit "editorial-elements"),
    p "attributes" (objOf [
      po "name" .str,
      po "title" .str,
      p "editorialElementKind" (u [.str, .num]),
      po "collectionId" .str,
      po "emphasize" .boolType,
      po "featureFirstElement" .boolType,
      po "designBadge" (u [.lit "NEW ALBUM", .lit "UPDATED PLAYLIST", .lit "LISTEN NOW",
        .lit "NEW PLAYLIST", .lit "NEW RELEASE", .str]),
      po "displayStyle" (u [.lit "compact", .lit "expanded"]),
      po "keySwoosh" (u [.lit "FeaturedPlaylists", .lit "ArtistsPlaylists", .str]),
      po "doNotFilter" .boolType,
      po "lastModifiedDate" .str,
      po "links" (.arr (objOf [
        p "label" .str,
        p "url" .str,
        po "target" (u [.lit "external", .lit "internal"])])),
      po "type" (.lit "normal"),
      po "supportedSorts" (.arr .str),
      po "description" .str]),
    p "id" (u [.lit "default", .str]),
    po "relationships" (iSect [
      objOf [
        p "children" (rel (r0 "EditorialElements")),
        po "contents" (rel (r0 "Resource")),
        po "room" (rel (r0 "Rooms"))],
      relRecord])],
  .iface "EditorialItem" [] ["Resource"] [
    p "type" (.lit "editorial-items"),
    p "attributes" (objOf [
      p "plainEditorialNotes" (r0 "EditorialNotes"),
      p "plainEditorialCard" (r0 "PlainEditorialCard"),
      p "editorialArtwork" (r0 "EditorialArtwork"),
      p "editorialVideo" (r0 "EditorialVideo"),
      p "link" (objOf [
        p "url" .str,
        p "target" (u [.lit "internal", .lit "external"]),
        p "feature" (u [.lit "internal", .lit "external"])]),
      p "url" .str]),
    po "meta" (objOf [p "editorialCard" .str])],
  .iface "PlainEditorialCard" [] [] [
    .idxSig .str (objOf [
      p "kind" (r0 "EditorialArtworkTypes"),
      p "display" (objOf [
        p "decorations" (u [.lit "gradient", .arr .unknownType])]),
      p "plainEditorialNotes" (r0 "EditorialNotes"),
      p "editorialArtwork" (r0 "EditorialArtwork"),
      p "editorialVideo" (r0 "EditorialVideo")])],
  .iface "Lyrics" [] ["Resource"] [
    p "type" (.lit "lyrics"),
    p "attributes" (objOf [
      p "playParams" (r0 "PlayParameters"),
      p "ttml" .str])],
  .iface "Credit" [] ["Resource"] [
    p "type" (.lit "role-categories"),
    p "attributes" (objOf [
      p "kind" (u [.lit "performer", .lit "composer-and-lyrics",
        .lit "production-and-engineering", .str]),
      p "title" .str]),
    po "relationships" (iSect [
      objOf [p "credit-artists" (rel (r0 "CreditArtist"))],
      relRecord])],
  .iface "CreditArtist" [] ["Resource"] [
    p "type" (.lit "credit-artists"),
    p "attributes" (objOf [
      p "name" .str,
      p "roleNames" (.arr .str),
      p "artwork" (r0 "Artwork")])],
  .iface "Rating" [] ["Resource"] [
    p "type" (.lit "ratings"),
    p "attributes" (objOf [p "value" .num])],
  .iface "AudioAnalysis" [] ["Resource"] [
    p "type" (.lit "audio-analysis"),
    p "attributes" (objOf [
      p "acousticness" audioBand,
      p "beats" (objOf [
        p "barsInMilliseconds" (.arr .num),
        p "beatsInMilliseconds" (.arr .num)]),
      p "bpm" (objOf [
        p "beginning" .num,
        p "ending" .num,
        p "main" .num,
        p "percentDeviation" .num]),
      p "danceability" audioBand,
      p "energy" audioBand,
      p "key" (objOf [
        p "beginning" tonicMode,
        p "ending" tonicMode,
        p "main" tonicMode]),
      p "loudness" (objOf [
        p "beginning" loudnessBand,
        p "ending" loudnessBand,
        p "main" loudnessBand]),
      p "melodicness" audioBand,
      p "valence" audioBand])],
  .iface "ReplaySummary" [] ["Resource"] [
    p "type" (.lit "music-summaries"),
    p "attributes" (objOf [
      p "period" (u [.lit "year", .lit "month"]),
      p "year" .num,
      po "month" .num,
      p "topSongCount" .num,
      p "listenTimeInMinutes" .num,
      p "uniqueStationCount" .num,
      p "uniqueGenreCount" .num,
      p "uniqueAlbumCount" .num,
      p "uniqueArtistCount" .num,
      p "uniquePlaylistCount" .num,
      p "uniqueSongCount" .num]),
    p "topGenres" (.arr (objOf [
      p "genre" .str,
      p "count" .num])),
    p "views" (objOf [
      p "top-albums" (rel (r0 "ReplayItemSummary")),
      p "top-artists" (rel (r0 "ReplayItemSummary")),
      p "top-songs" (rel (r0 "ReplayItemSummary"))]),
    p "relationships" (objOf [po "playlist" (rel (r0 "Playlists"))])],
  .iface "ReplayMilestone" [] ["Resource"] [
    p "type" (.lit "music-summaries-milestones"),
    p "attributes" (objOf [
      p "listenTimeInMinutes" .num,
      p "dateReached" .str,
      p "value" .num,
      p "kind" (u [.lit "listen-time", .lit "artist", .lit "song"])]),
    p "relationships" (objOf [
      p "top-albums" (rel (r0 "Albums")),
      p "top-artists" (rel (r0 "Artists")),
      p "top-songs" (rel (r0 "Songs"))])],
  .iface "ReplayItemSummary" [] ["Resource"] [
    p "type" (u [.lit "song-period-summaries", .lit "artist-period-summaries",
      .lit "album-period-summaries"]),
    p "attributes" (objOf [
      p "firstPlayed" .str,
      p "lastPlayed" .str,
      p "playCount" .num,
      po "listenTimeInMinutes" .num]),
    po "relationships" (iSect [
      objOf [
        po "song" (rel (r0 "Songs")),
        po "artist" (rel (r0 "Artists")),
        po "album" (rel (r0 "Albums"))],
      relRecord])]]

/-- Transcription of src/types/MusicKit.API.d.ts, part 3: search and
metadata helper shapes, artwork aliases and their mapped types, query
plumbing and the API interface.  The default type argument of
`QueryResponse<T = unknown>` is not tracked. -/
def declsAPI3 : List Decl := [
  .iface "Suggestion" [] [] [
    po "displayTerm" .str,
    p "kind" (u [.lit "terms", .lit "topResults"]),
    po "searchTerm" .str,
    po "source" .str,
    po "content" (r0 "Resource")],
  .iface "EditorialNotes" [] [] [
    po "hashValue" .num,
    po "name" .str,
    po "short" .str,
    po "standard" .str,
    po "tagline" .str],
  .iface "Artwork" [] [] [
    p "bgColor" .str,
    p "height" .num,
    p "width" .num,
    p "textColor1" .str,
    p "textColor2" .str,
    p "textColor3" .str,
    p "textColor4" .str,
    p "url" .str,
    po "hasP3" .boolType],
  .typeAlias "ArtworkKinds"
    (u [.lit "cc", .lit "sr", .lit "bb", .lit "br", .lit "vf"]),
  .typeAlias "ArtworkFormats"
    (u [.lit "jpg", .lit "jpeg", .lit "png", .lit "webp", .lit "tiff", .lit "svg"]),
  .typeAlias "EditorialArtworkTypes"
    (u [.lit "superHeroTall", .lit "superHeroWide", .lit "storeFlowcase",
      .lit "subscriptionHero", .lit "subscriptionCover", .lit "staticDetailSquare",
      .lit "staticDetailTall", .lit "brandLogo"]),
  .typeAlias "EditorialArtwork"
    (.mappedUnion "EditorialArtworkTypes" false (r0 "Artwork")),
  .typeAlias "EditorialVideoTypes"
    (u [.lit "motionSquareVideo1x1", .lit "motionTallVideo3x4",
      .lit "motionWideVideo21x9", .lit "motionDetailTall", .lit "motionDetailSquare"]),
  .iface "Video" [] [] [
    p "previewFrame" (r0 "Artwork"),
    p "video" .str],
  .typeAlias "EditorialVideo"
    (.mappedUnion "EditorialVideoTypes" false (r0 "Video")),
  .iface "Preview" [] [] [
    p "artwork" (r0 "Artwork"),
    p "url" .str,
    p "hlsUrl" .str],
  .iface "DescriptionAttribute" [] [] [
    p "short" .str,
    p "standard" .str,
    po "long" .str],
  .iface "SearchResult" ["T"] [] [
    p "data" (.arr (.tyVar "T")),
    po "href" .str,
    po "next" .str],
  .iface "SearchChartResult" ["T"] [] [
    p "chart" .str,
    p "data" (.arr (.tyVar "T")),
    po "href" .str,
    p "name" .str,
    po "next" .str],
  .typeAlias "QueryParameters" (recordOf .str .anyType),
  .typeAlias "QueryOptions" (objOf [
    po "includeResponseMeta" .boolType,
    po "fetchOptions" (r0 "RequestInit")]),
  .iface "v3MusicRoutes" [] [] [
    p "v1/me/library/songs" (.arr (r0 "Songs")),
    p "v1/me/library/songs/*" (.arr (r0 "Songs")),
    p "v1/me/library/albums" (.arr (r0 "Albums")),
    p "v1/me/library/artists" (.arr (r0 "Artists")),
    p "/v1/me/recent/played" (u [.arr (r0 "Songs"), .arr (r0 "Albums")]),
    p "v1/me/library/playlists" (.arr (r0 "Playlists")),
    p "v1/me/library/playlists/*" (.arr (r0 "Playlists")),
    p "v1/me/library/search" (u [.arr (r0 "Songs"), .arr (r0 "Albums"),
      .arr (r0 "Artists"), .arr (r0 "Playlists")]),
    p "v1/storefronts" (.arr (r0 "Storefronts")),
    p "v1/me/rating/songs" (.arr (r0 "Rating")),
    p "v1/me/rating/albums" (.arr (r0 "Rating")),
    p "v1/me/rating/playlists" (.arr (r0 "Rating")),
    p "am/groupings" (.arr (r0 "Groupings"))],
  .typeAlias "QueryResources"
    (.mappedKeyof "ResourceMap" true
      (objOf [.idxSig .str (.idxK "ResourceMap" "K")])),
  .typeAlias "ResourceTypes" (.keyof "ResourceMap"),
  .iface "QueryResponse" ["T"] [] [
    p "data" (objOf [
      p "data" (.tyVar "T"),
      p "resources" (r0 "QueryResources"),
      p "results" (r0 "QueryResult"),
      p "next" .str,
      p "meta" (objOf [
        p "total" .num,
        p "latestYear" .num,
        p "isEndOfYear" .boolType,
        po "metrics" (objOf [p "dataSetId" .str])])]),
    p "request" .unknownType,
    p "response" .unknownType],
  .iface "QueryResult" [] [] [
    po "target" .str,
    po "activities" (sr (r0 "Activities")),
    po "albums" (sr (r0 "Albums")),
    po "apple-curators" (sr (r0 "AppleCurators")),
    po "artists" (sr (r0 "Artists")),
    po "curators" (sr (r0 "Curators")),
    po "music-videos" (sr (r0 "MusicVideos")),
    po "playlists" (sr (r0 "Playlists")),
    po "record-labels" (sr (r0 "RecordLabels")),
    po "stations" (sr (r0 "Stations")),
    po "songs" (sr (r0 "Songs")),
    po "badgingMap" (sr .unknownType),
    po "suggestions" (.arr (r0 "Suggestion")),
    po "top" (objOf [
      p "data" (.arr (u [r0 "Activities", r0 "Albums", r0 "AppleCurators",
        r0 "Artists", r0 "Curators", r0 "MusicVideos", r0 "Playlists",
        r0 "RecordLabels", r0 "Songs", r0 "Stations"]))])],
  .iface "API" [] [] [
    mg "music" [("T", .keyof "v3MusicRoutes")]
      [u [.tyVar "T", .str], r0 "QueryParameters", r0 "QueryOptions"]
      (promiseOf (r1 "QueryResponse" (u [.idxK "v3MusicRoutes" "T", .anyType]))),
    p "storefrontId" .str]]

/-- Transcription of src/types/MusicKit.API.d.ts as a whole. -/
def declsAPI : List Decl := declsAPI1 ++ declsAPI2 ++ declsAPI3

/-- Transcription of src/types/MusicKit.Events.d.ts: the Events interface
mapping event names to payload types. -/
def declsEvents : List Decl := [
  .iface "Events" [] [] [
    p "authorizationStatusDidChange" (objOf [p "authorizationStatus" (r0 "AuthStatus")]),
    p "authorizationStatusWillChange" .unknownType,
    p "eligibleForSubscribeView" .unknownType,
    p "loaded" .unknownType,
    p "mediaCanPlay" .unknownType,
    p "mediaItemStateDidChange" (r0 "MediaItem"),
    p "mediaItemStateWillChange" (r0 "MediaItem"),
    p "mediaPlaybackError" (objOf [p "message" .str]),
    p "metadataDidChange" .unknownType,
    p "playbackBitrateDidChange" (objOf [p "bitrate" .num]),
    p "playbackDurationDidChange" .unknownType,
    p "bufferedProgressDidChange" (objOf [p "progress" .num]),
    p "playbackProgressDidChange" (objOf [p "progress" .num]),
    p "playbackStateDidChange" (objOf [
      p "nowPlayingItem" (r0 "MediaItem"),
      p "oldState" (r0 "PlaybackStates"),
      p "state" (r0 "PlaybackStates")]),
    p "playbackStateWillChange" (objOf [
      p "nowPlayingItem" (r0 "MediaItem"),
      p "oldState" (r0 "PlaybackStates"),
      p "state" (r0 "PlaybackStates")]),
    p "playbackTargetAvailableDidChange" .unknownType,
    p "playbackTimeDidChange" (objOf [
      p "currentPlaybackDuration" .num,
      p "currentPlaybackTime" .num,
      p "currentPlaybackTimeRemaining" .num]),
    p "playbackVolumeDidChange" (r0 "Event"),
    p "primaryPlayerDidChange" .unknownType,
    p "queueItemsDidChange" (.arr (r0 "MediaItem")),
    p "queuePositionDidChange" (objOf [
      p "oldPosition" .num,
      p "position" .num]),
    p "storefrontCountryCodeDidChange" .unknownType,
    p "storefrontIdentifierDidChange" .unknownType,
    p "userTokenDidChange" (objOf [p "userToken" .str]),
    p "nowPlayingItemDidChange" (objOf [p "item" (r0 "MediaItem")]),
    p "repeatModeDidChange" (r0 "PlayerRepeatMode"),
    p "shuffleModeDidChange" (r0 "PlayerShuffleMode"),
    p "autoplayEnabledDidChange" .boolType,
    p "timedMetadataDidChange" (objOf [
      p "album" .str,
      p "blob" (r0 "Blob"),
      p "links" (.arr (objOf [p "description" .str, p "url" .str])),
      p "performer" .str,
      p "storefrontAdamIds" (objOf [.idxSig .str .str]),
      p "title" .str]),
    p "mediaElementCreated" (objOf [p "mediaElement" .unknownType])]]

/-- Transcription of src/types/MusicKit.MusicKitInstance.d.ts (which also
carries the Player declaration file content): the MusicKitInstance
interface, the playback enums, the repeat and shuffle mode aliases, media
asset shapes, and the Player interface. -/
def declsInstance : List Decl := [
  .iface "MusicKitInstance" [] ["Player"] [
    p "capabilities" .anyType,
    pr "api" (r0 "API"),
    pr "bitrate" (r0 "PlaybackBitrate"),
    pr "developerToken" .str,
    pr "isAuthorized" .boolType,
    pr "musicUserToken" .str,
    pr "playbackState" (r0 "PlaybackStates"),
    pr "playbackTargetAvailable" .boolType,
    pr "player" (r0 "Player"),
    pr "storefrontId" .str,
    pr "storefrontCountryCode" .str,
    p "privateEnabled" .boolType,
    p "volume" .num,
    p "autoplayEnabled" .boolType,
    p "playbackRate" .num,
    p "currentPlaybackProgress" .num,
    mg "addEventListener" [("K", .keyof "Events")]
      [.tyVar "K", fnT [.idxK "Events" "K"] .voidType] .voidType,
    m0 "addToLibrary" [.str, .str]
      (promiseOf (objOf [.idxSig .str (.arr .str)])),
    m0 "authorize" [] (promiseOf .str),
    m0 "changeToMediaAtIndex" [.num] (promiseOf .num),
    m0 "pause" [] .voidType,
    m0 "play" [] (promiseOf (r0 "MediaItemPosition")),
    m0 "playLater" [r0 "SetQueueOptions"] (promiseOf .voidType),
    m0 "playNext" [r0 "SetQueueOptions"] (promiseOf .voidType),
    mg "removeEventListener" [("K", .keyof "Events")]
      [.tyVar "K", fnT [.idxK "Events" "K"] .voidType] .voidType,
    m0 "seekToTime" [.num] (promiseOf .anyType),
    m0 "setQueue" [r0 "SetQueueOptions"] (promiseOf (r0 "Queue")),
    p "queue" (r0 "Queue"),
    m0 "clearQueue" [] .voidType,
    m0 "skipToNextItem" [] (promiseOf (r0 "MediaItemPosition")),
    m0 "skipToPreviousItem" [] (promiseOf (r0 "MediaItemPosition")),
    m0 "stop" [] .voidType,
    m0 "unauthorize" [] (promiseOf .anyType),
    p "videoContainerElement" (r0 "HTMLDivElement"),
    m0 "savePlaybackState" [] .voidType,
    m0 "restorePlaybackState" [] .voidType,
    p "_previousPlaybackState" (objOf [
      p "autoplayEnabled" .boolType,
      p "playbackMode" .num,
      p "repeatMode" .num,
      p "shuffleMode" .num,
      p "volume" .num]),
    po "services" .anyType,
    po "previewOnly" .boolType,
    p "_bag" .anyType],
  .enumDecl "PlaybackStates" [
    ("none", none),
    ("loading", none),
    ("playing", none),
    ("paused", none),
    ("stopped", none),
    ("ended", none),
    ("seeking", none),
    ("waiting", none),
    ("stalled", none),
    ("completed", none)],
  .enumDecl "PlaybackBitrate" [
    ("HIGH", some 256),
    ("STANDARD", some 64)],
  .typeAlias "PlayerRepeatMode" (u [.numLit 0, .numLit 1, .numLit 2]),
  .typeAlias "PlayerShuffleMode" (u [.numLit 0, .numLit 1]),
  .typeAlias "MediaItemPosition" .num,
  .iface "MediaItemAsset" [] [] [
    p "URL" .str,
    p "artworkURL" .str,
    p "chunks" (objOf [
      p "chunkSize" .num,
      p "hashes" (.arr .str)]),
    p "downloadKey" .str,
    p "file-size" .num,
    p "flavor" (u [.lit "30:cbcp256", .lit "34:cbcp64", .lit "28:ctrp256",
      .lit "32:ctrp64", .lit "37:ibhp256", .lit "38:ibhp64"]),
    p "md5" .str,
    p "metadata" (objOf [
      p "composerId" .str,
      p "genreId" .str,
      p "copyright" .str])],
  .iface "Container" [] [] [
    p "id" .str,
    p "type" .str,
    po "href" .str,
    po "name" .str,
    po "attributes" (recordOf .str .anyType)],
  .iface "Context" [] [] [
    p "featureName" .str],
  .iface "Player" [] [] [
    pr "bitrate" .num,
    pr "canSupportDRM" .boolType,
    pr "currentPlaybackDuration" .num,
    pr "currentPlaybackProgress" .num,
    pr "currentPlaybackTime" .num,
    pr "currentPlaybackTimeRemaining" .num,
    pr "formattedCurrentPlaybackDuration" (r0 "FormattedPlaybackDuration"),
    pr "isPlaying" .boolType,
    pr "nowPlayingItem" (iSect [
      r0 "MediaItem",
      objOf [
        p "assets" (.arr (r0 "MediaItemAsset")),
        p "container" (r0 "Container"),
        p "context" (r0 "Context")]]),
    pro "nowPlayingItemIndex" (orUndef .num),
    pr "playbackRate" .num,
    pr "playbackState" (r0 "PlaybackStates"),
    pro "playbackTargetAvailable" (orUndef .boolType),
    pr "queue" (r0 "Queue"),
    p "repeatMode" (r0 "PlayerRepeatMode"),
    p "shuffleMode" (r0 "PlayerShuffleMode"),
    p "volume" .num,
    m0 "addEventListener" [.str, fnT [] .anyType] .voidType,
    m0 "changeToMediaAtIndex" [.num] (promiseOf (r0 "MediaItemPosition")),
    m0 "changeToMediaItem" [r0 "Descriptor"] (promiseOf (r0 "MediaItemPosition")),
    m0 "mute" [] .voidType,
    m0 "pause" [] .voidType,
    m0 "play" [] (promiseOf (r0 "MediaItemPosition")),
    m0 "prepareToPlay" [r0 "Descriptor"] (promiseOf .voidType),
    m0 "removeEventListener" [.str, fnT [] .anyType] .voidType,
    m0 "seekToTime" [.num] (promiseOf .voidType),
    m0 "showPlaybackTargetPicker" [] .voidType,
    m0 "skipToNextItem" [] (promiseOf (r0 "MediaItemPosition")),
    m0 "skipToPreviousItem" [] (promiseOf (r0 "MediaItemPosition")),
    m0 "stop" [] .voidType]]

/-- Transcription of src/types/MusicKit.Queue.d.ts: the playback queue
interface. -/
def declsQueue : List Decl := [
  .iface "Queue" [] [] [
    pr "isEmpty" .boolType,
    p "items" (.arr (r0 "MediaItem")),
    pr "length" .num,
    pro "nextPlayableItem" (orUndef (r0 "MediaItem")),
    pr "nextPlayableItemIndex" .num,
    pr "position" .num,
    pro "previousPlayableItem" (orUndef (r0 "MediaItem")),
    pr "previousPlayableItemIndex" .num,
    pr "hasAutoplayStation" .boolType,
    p "_queueItems" (.arr (objOf [
      p "isAutoplay" .boolType,
      p "item" (r0 "MediaItem")])),
    m0 "_reindex" [] .voidType,
    m0 "addEventListener" [.str, fnT [] .anyType] .voidType,
    m0 "append" [r0 "Descriptor"] .voidType,
    m0 "indexForItem" [r0 "Descriptor"] .num,
    m0 "item" [.num] (u [r0 "MediaItem", .nullType, .undefType]),
    m0 "prepend" [.anyType] .voidType,
    m0 "removeEventListener" [.str, fnT [] .anyType] .voidType]]

/-- Transcription of src/types/MusicKit.SetQueueOptions.d.ts: the queue
configuration options interface. -/
def declsSetQueueOptions : List Decl := [
  .iface "SetQueueOptions" [] [] [
    po "album" (orUndef .str),
    po "items" (orUndef (.arr (r0 "Descriptor"))),
    po "parameters" (orUndef (r0 "QueryParameters")),
    po "playlist" (orUndef .str),
    po "song" (orUndef .str),
    po "songs" (orUndef (.arr .str)),
    po "musicVideos" (orUndef (.arr .str)),
    po "station" (orUndef .str),
    po "startPosition" (orUndef .num),
    po "url" (orUndef .str)]]

/-- Transcription of the MKError declaration file of the repository
(src/unnamed/part_001, the file MusicKit.MKError.d.ts referenced from
index.d.ts): the MKError class extending the standard Error, with its two
instance properties and its nineteen static string error code constants,
none of which carries an initializer or any handling logic. -/
def declsMKError : List Decl := [
  .classDecl "MKError" ["Error"] [
    p "errorCode" .str,
    po "description" (orUndef .str),
    sp "ACCESS_DENIED" .str,
    sp "AUTHORIZATION_ERROR" .str,
    sp "CONFIGURATION_ERROR" .str,
    sp "CONTENT_RESTRICTED" .str,
    sp "INVALID_ARGUMENTS" .str,
    sp "MEDIA_CERTIFICATE" .str,
    sp "MEDIA_DESCRIPTOR" .str,
    sp "MEDIA_KEY" .str,
    sp "MEDIA_LICENSE" .str,
    sp "MEDIA_PLAYBACK" .str,
    sp "MEDIA_SESSION" .str,
    sp "NETWORK_ERROR" .str,
    sp "NOT_FOUND" .str,
    sp "QUOTA_EXCEEDED" .str,
    sp "SERVER_ERROR" .str,
    sp "SERVICE_UNAVAILABLE" .str,
    sp "SUBSCRIPTION_ERROR" .str,
    sp "UNKNOWN_ERROR" .str,
    sp "UNSUPPORTED_ERROR" .str]]

/-- The declaration set of the repository source files, in file order of
index.d.ts reference directives. -/
def repoDecls : List Decl :=
  declsMusicKitD ++ declsAPI ++ declsEvents ++ declsMKError ++
    declsInstance ++ declsQueue ++ declsSetQueueOptions

/-- Modelled from the spec: the file MusicKit.MediaItem.d.ts is referenced
from index.d.ts but is not present among the source files.  Per the spec
the repository describes queue item shapes and the doc comments of the
present files state that a descriptor is a MusicKit.MediaItem instance or
a string identifier and that media items carry play parameters.  The three
names that file declares and the present files reference are modelled
minimally: the MediaItem class, the Descriptor alias (a MediaItem or a
string identifier) and the PlayParameters interface. -/
def declsMediaItemModelled : List Decl := [
  .classDecl "MediaItem" [] [
    p "id" .str,
    po "attributes" .anyType],
  .typeAlias "Descriptor" (u [r0 "MediaItem", .str]),
  .iface "PlayParameters" [] [] [
    p "id" .str,
    p "kind" .str]]

/-- Names of globals supplied by the TypeScript standard library and DOM
library that the source references: these resolve outside the repository. -/
def tsLibGlobals : List String :=
  ["Record", "Promise", "Error", "Blob", "Event", "RequestInit", "HTMLDivElement"]

/-- Names a reference of the repository may resolve to: the declarations of
the repository source files, the declarations of the referenced
MusicKit.MediaItem.d.ts file, and the standard library globals. -/
def resolutionEnv : List String :=
  (repoDecls ++ declsMediaItemModelled).map declName ++ tsLibGlobals

/-- The referenced names of a declaration list that resolve to no
declaration of the environment. -/
def unresolvedRefs (ds : List Decl) (env : List String) : List String :=
  ((allForms ds).map (fun x => x.1)).filter (fun n => !(env.contains n))

/-- There is an edge from declaration `a` to declaration `b` in the type
reference graph of the declaration list: `a` mentions `b` in its extends
clause or anywhere in its member types. -/
def refEdge (ds : List Decl) (a b : String) : Bool :=
  match findDecl ds a with
  | some d => (declRefNames d).contains b
  | none => false

/-- The reference occurrences, with their syntactic forms, of the
declaration named `n`. -/
def declFormsOfName (ds : List Decl) (n : String) : List (String × RefForm) :=
  match findDecl ds n with
  | some d => declForms d
  | none => []

/-- The declaration named `n` is a function declaration without a body. -/
def funcAmbient (ds : List Decl) (n : String) : Bool :=
  match findDecl ds n with
  | some (.funcDecl _ _ _ b) => b.isNone
  | _ => false

/-- The declaration named `n` is a constant declaration without an
initializer. -/
def constNoInit (ds : List Decl) (n : String) : Bool :=
  match findDecl ds n with
  | some (.constDecl _ _ i) => i.isNone
  | _ => false

/-- The names of the static properties of class `n` that are declared with
type `string` and no initializer. -/
def staticStrConsts (ds : List Decl) (n : String) : Option (List String) :=
  ((findDecl ds n).bind declMembers).map fun ms =>
    ms.filterMap fun m =>
      match m with
      | .sprop nm .str none => some nm
      | _ => none

/-- Every static property of the member list has type `string` and no
initializer. -/
def staticsAllStrNoInit (ds : List Decl) (n : String) : Bool :=
  match (findDecl ds n).bind declMembers with
  | some ms =>
      ms.all fun m =>
        match m with
        | .sprop _ .str none => true
        | .sprop _ _ _ => false
        | _ => true
  | none => false

/-- The optionality marker and declared type of field `f` of interface or
class `n`. -/
def memberOptTy (ds : List Decl) (n f : String) : Option (Bool × TsType) :=
  (findDecl ds n).bind fun d => (declMembers d).bind fun ms =>
    ms.findSome? fun m =>
      match m with
      | .prop nm o _ t _ => if nm == f then some (o, t) else none
      | _ => none

/-- Every declaration that takes part in an inheritance hierarchy (a
nonempty extends clause) has signature-only members: hierarchies carry no
behavior. -/
def hierarchiesSignatureOnly (ds : List Decl) : Bool :=
  ds.all fun d =>
    match d with
    | .iface _ _ [] _ => true
    | .iface _ _ _ ms => ms.all memSignatureOnly
    | .classDecl _ [] _ => true
    | .classDecl _ _ ms => ms.all memSignatureOnly
    | _ => true

/-- The (field name, optional marker) description of interface `n`: all the
information a property signature carries beside its type. -/
def fieldOptionality (ds : List Decl) (n : String) : Option (List (String × Bool)) :=
  ((findDecl ds n).bind declMembers).map fun ms =>
    (propsOf ms).map fun f => (f.1, f.2.1)

set_option maxRecDepth 10000

/-- Claim C1: for every declared member in the repository source files
(interfaces, type aliases, enums, declared constants and declared
functions, including configure, formatArtworkURL, formattedMilliseconds,
generateEmbedCode and formatMediaTime), there is no implementation in this
repository and the constructs carry zero executable code: the embedding of
the declaration set contains not a single statement, and each of the seven
declared functions is a bodyless ambient function declaration. -/
theorem claim1_declarations_have_no_implementation :
    totalStmts repoDecls = 0 ∧
    repoDecls.all declAmbient = true ∧
    funcAmbient repoDecls "configure" = true ∧
    funcAmbient repoDecls "getInstance" = true ∧
    funcAmbient repoDecls "formatArtworkURL" = true ∧
    funcAmbient repoDecls "formattedMilliseconds" = true ∧
    funcAmbient repoDecls "formattedSeconds" = true ∧
    funcAmbient repoDecls "generateEmbedCode" = true ∧
    funcAmbient repoDecls "formatMediaTime" = true := by
  exact ⟨by decide, by decide, by decide, by decide, by decide, by decide,
    by decide, by decide, by decide⟩

/-- Claim C2, counterexample: the literal `type` field of LibraryAlbums
does not resolve to a compatible declaration.  LibraryAlbums extends
Albums and overrides `type` with the literal "library-albums", while
Albums declares the literal "albums"; the override is not assignable to
the inherited type, so the extension clause fails the member compatibility
check and the repository does not type check as the claim states. -/
theorem claim2_library_albums_type_field_incompatible :
    overrideCompat repoDecls "LibraryAlbums" "type" = some false := by
  decide

/-- Claim C2, amended: every type name referenced anywhere in the
declarations (including MediaItem in Queue.items and Descriptor in
SetQueueOptions.items, both declared by the MusicKit.MediaItem.d.ts file
the index references) resolves to a declaration of the repository or to a
standard library global, but the repository is not fully structurally
consistent: exactly the two interfaces LibraryAlbums and LibrarySongs
override the literal `type` field of their parent with an incompatible
literal, so those two extension clauses do not type check. -/
theorem claim2_names_resolve_and_only_library_overrides_fail :
    unresolvedRefs repoDecls resolutionEnv = [] ∧
    typeFieldViolations repoDecls = ["LibraryAlbums", "LibrarySongs"] := by
  exact ⟨by decide, by decide⟩

/-- Claim C3: no code path of the repository can fail at runtime (the
embedding contains zero statements) and the error surface is exactly the
catalog of nineteen named error code constants on the MKError class, from
ACCESS_DENIED through UNSUPPORTED_ERROR, each a static string-typed
identifier with no initializer and no handling logic, beside the string
errorCode and optional string description instance fields. -/
theorem claim3_mkError_error_surface :
    staticStrConsts repoDecls "MKError" = some ["ACCESS_DENIED",
      "AUTHORIZATION_ERROR", "CONFIGURATION_ERROR", "CONTENT_RESTRICTED",
      "INVALID_ARGUMENTS", "MEDIA_CERTIFICATE", "MEDIA_DESCRIPTOR",
      "MEDIA_KEY", "MEDIA_LICENSE", "MEDIA_PLAYBACK", "MEDIA_SESSION",
      "NETWORK_ERROR", "NOT_FOUND", "QUOTA_EXCEEDED", "SERVER_ERROR",
      "SERVICE_UNAVAILABLE", "SUBSCRIPTION_ERROR", "UNKNOWN_ERROR",
      "UNSUPPORTED_ERROR"] ∧
    staticsAllStrNoInit repoDecls "MKError" = true ∧
    memberTy repoDecls "MKError" "errorCode" = some TsType.str ∧
    memberOptTy repoDecls "MKError" "description" = some (true, orUndef TsType.str) ∧
    totalStmts repoDecls = 0 := by
  exact ⟨rfl, by decide, rfl, rfl, by decide⟩

/-- Claim C4: no code in the repository instantiates, validates or mutates
a value of any declared shape (the embedding contains zero statements and
every member of every interface and class is a pure signature), and each
shape carries nothing beyond the optional or required type of each field,
as exhibited for the cited BaseResource shape by its exact field and
optionality description. -/
theorem claim4_shapes_are_pure_field_signatures :
    repoDecls.all declAmbient = true ∧
    totalStmts repoDecls = 0 ∧
    fieldOptionality repoDecls "BaseResource" = some [("id", false),
      ("type", false), ("href", false), ("attributes", false),
      ("relationships", true), ("meta", true), ("views", true)] := by
  exact ⟨by decide, by decide, rfl⟩

/-- Claim C5, counterexample: not every relationship between declarations
is one of the three forms interface extension, mapped type, union
discrimination.  The Queue interface refers to the MediaItem declaration
through a plain type reference (its `items` property of type
`MediaItem[]`), and a plain type reference is none of the three claimed
forms. -/
theorem claim5_plain_type_reference_beyond_three_forms :
    (declFormsOfName repoDecls "Queue").contains ("MediaItem", RefForm.typeRef) = true ∧
    ([RefForm.extendsC, RefForm.mappedSrc, RefForm.unionMember].contains
      RefForm.typeRef) = false := by
  exact ⟨by decide, by decide⟩

/-- Claim C5, amended: between the declared parts of the repository there
is no data flow, no control flow and no runtime composition (the embedding
contains zero statements); every relationship between declarations is a
compile-time structural form resolved statically by a type checker, and
the forms occurring are interface extension, mapped types, union
membership (which carries the literal `type` discrimination), plain type
references, intersection membership, indexed access and keyof. -/
theorem claim5_all_relationships_are_static_forms :
    totalStmts repoDecls = 0 ∧
    [RefForm.typeRef, RefForm.unionMember, RefForm.extendsC, RefForm.mappedSrc,
      RefForm.idxAccess, RefForm.interMember, RefForm.keyofC].all
        (fun f => ((allForms repoDecls).map (fun x => x.2)).contains f) = true := by
  exact ⟨by decide, by decide⟩

/-- Claim C6, counterexample: the declaration set does contain a cyclic
graph.  In the type reference graph, Songs refers to Albums (through its
albums relationship) and Albums refers back to Songs (through its tracks
relationship), a cycle of length two between the very declarations the
claim cites as exhibiting no such pattern. -/
theorem claim6_songs_albums_reference_cycle :
    refEdge repoDecls "Songs" "Albums" = true ∧
    refEdge repoDecls "Albums" "Songs" = true := by
  exact ⟨by decide, by decide⟩

/-- Claim C6, amended: the source contains cyclic type reference graphs
(Songs and Albums reference each other), but no inheritance hierarchy with
behavior (every declaration with a nonempty extends clause has
signature-only members), no global mutable state defined here (the
declared global errors constant is an ambient const with no initializer)
and no executable code at all, hence no dynamic dispatch and no coroutine
control flow. -/
theorem claim6_cycle_exists_but_no_behavior :
    refEdge repoDecls "Songs" "Albums" = true ∧
    refEdge repoDecls "Albums" "Songs" = true ∧
    hierarchiesSignatureOnly repoDecls = true ∧
    constNoInit repoDecls "errors" = true ∧
    totalStmts repoDecls = 0 := by
  exact ⟨by decide, by decide, by decide, by decide, by decide⟩

/-- Claim C7: the only external facing artifact the repository defines is
the set of declared names and shapes themselves, here pinned as the exact
ninety-five declaration names of the source files in order, and the
declarations carry no executable code that could define or consume a wire
format, a CLI, persisted state or an environment variable surface. -/
theorem claim7_external_surface_is_declared_names :
    repoDecls.map declName = ["AppConfiguration", "FormattedPlaybackDuration",
      "EmbedOptions", "errors", "version", "__log", "AuthStatus", "Logger",
      "Configuration", "configure", "getInstance", "formatArtworkURL",
      "formattedMilliseconds", "formattedSeconds", "generateEmbedCode",
      "formatMediaTime", "MusicItemID", "ContentRating", "BaseResource",
      "BaseMediaResource", "BaseLibraryResource", "ResourceMap",
      "Relationships", "Relationship", "View", "Resource", "Storefronts",
      "Genres", "Songs", "MusicVideos", "AppleCurators", "Curators",
      "Stations", "RecordLabels", "Albums", "LibraryAlbums", "LibrarySongs",
      "LibraryPlaylists", "Artists", "Playlists", "PodcastAttributes",
      "PodcastEpisode", "Podcasts", "Activities", "PersonalRecommendation",
      "SocialProfile", "Groupings", "Rooms", "EditorialElements",
      "EditorialItem", "PlainEditorialCard", "Lyrics", "Credit",
      "CreditArtist", "Rating", "AudioAnalysis", "ReplaySummary",
      "ReplayMilestone", "ReplayItemSummary", "Suggestion", "EditorialNotes",
      "Artwork", "ArtworkKinds", "ArtworkFormats", "EditorialArtworkTypes",
      "EditorialArtwork", "EditorialVideoTypes", "Video", "EditorialVideo",
      "Preview", "DescriptionAttribute", "SearchResult", "SearchChartResult",
      "QueryParameters", "QueryOptions", "v3MusicRoutes", "QueryResources",
      "ResourceTypes", "QueryResponse", "QueryResult", "API", "Events",
      "MKError", "MusicKitInstance", "PlaybackStates", "PlaybackBitrate",
      "PlayerRepeatMode", "PlayerShuffleMode", "MediaItemPosition",
      "MediaItemAsset", "Container", "Context", "Player", "Queue",
      "SetQueueOptions"] ∧
    totalStmts repoDecls = 0 := by
  exact ⟨rfl, by decide⟩

/-- Claim C8: the mapped type Relationships is exactly the pointwise image
of the ResourceMap interface under the Relationship constructor: expanding
the mapped alias against the repository declarations yields, for every key
of ResourceMap in order with no extra and no missing keys, an optional
property whose type is Relationship applied to the ResourceMap property
type at that key. -/
theorem claim8_relationships_pointwise_image :
    expandAlias repoDecls "Relationships" =
      ((findDecl repoDecls "ResourceMap").bind declMembers).map
        (fun ms => (propsOf ms).map (fun f => (f.1, true, rel f.2.2))) ∧
    (expandAlias repoDecls "Relationships").map (fun l => l.map (fun f => f.1)) =
      some ["songs", "albums", "artists", "playlists", "storefronts",
        "library-playlist-folders", "library-playlists", "library-songs",
        "library-albums", "library-artists", "curator", "social-profiles",
        "apple-curators", "credit-artists", "lyrics", "credits", "catalog",
        "personal-recommendation", "stations", "music-summaries",
        "music-summaries-milestones", "editorial-items"] := by
  exact ⟨rfl, rfl⟩

/-- Claim C9: the enum declarations pin the exact integer values
AuthStatus.NOT_DETERMINED = 0, DENIED = 1, RESTRICTED = 2, AUTHORIZED = 3,
PlaybackBitrate.HIGH = 256 and STANDARD = 64, and these six are the only
enum members of the repository declared with an explicit numeric constant
(the PlaybackStates enum leaves all its values implicit). -/
theorem claim9_enum_values :
    enumValuesOf repoDecls "AuthStatus" = some [("NOT_DETERMINED", 0),
      ("DENIED", 1), ("RESTRICTED", 2), ("AUTHORIZED", 3)] ∧
    enumValuesOf repoDecls "PlaybackBitrate" = some [("HIGH", 256),
      ("STANDARD", 64)] ∧
    explicitEnumInits repoDecls = [("AuthStatus", "NOT_DETERMINED", 0),
      ("AuthStatus", "DENIED", 1), ("AuthStatus", "RESTRICTED", 2),
      ("AuthStatus", "AUTHORIZED", 3), ("PlaybackBitrate", "HIGH", 256),
      ("PlaybackBitrate", "STANDARD", 64)] := by
  exact ⟨rfl, rfl, rfl⟩

/-- Claim C10: the repeatMode field of the Player interface is declared
with the PlayerRepeatMode alias and the shuffleMode field with the
PlayerShuffleMode alias, and those aliases accept exactly the integers 0, 1,
2 respectively 0, 1: any other integer fails the declared numeric literal
union, so an out-of-range mode value cannot enter a well-typed Player. -/
theorem claim10_repeat_shuffle_mode_ranges :
    memberTy repoDecls "Player" "repeatMode" = some (r0 "PlayerRepeatMode") ∧
    memberTy repoDecls "Player" "shuffleMode" = some (r0 "PlayerShuffleMode") ∧
    aliasTy repoDecls "PlayerRepeatMode" =
      some (u [TsType.numLit 0, TsType.numLit 1, TsType.numLit 2]) ∧
    aliasTy repoDecls "PlayerShuffleMode" =
      some (u [TsType.numLit 0, TsType.numLit 1]) ∧
    (∀ n : Int, numAssignableName repoDecls "PlayerRepeatMode" n = true ↔
      (n = 0 ∨ n = 1 ∨ n = 2)) ∧
    (∀ n : Int, numAssignableName repoDecls "PlayerShuffleMode" n = true ↔
      (n = 0 ∨ n = 1)) := by
  refine ⟨rfl, rfl, rfl, rfl, ?_, ?_⟩
  · intro n
    have h : numAssignableName repoDecls "PlayerRepeatMode" n
        = (n == 0 || (n == 1 || (n == 2 || false))) := rfl
    rw [h]
    simp
  · intro n
    have h : numAssignableName repoDecls "PlayerShuffleMode" n
        = (n == 0 || (n == 1 || false)) := rfl
    rw [h]
    simp
